import Mathlib

/-!
Verification of the nvidia-control repository's voltage controller.

The repository has three JavaScript variants of the same controller:
`nv-control.js` (streaming telemetry, safety monitor, per-device change
check), `vt-control.js` (one-shot telemetry, batch-global change check)
and an unnamed variant (`part_000`, one-shot telemetry, batch-global
change check).  This file shallowly embeds the numeric and state logic
of those programs:

* JavaScript numbers are embedded as `ℚ`; every value the controller
  actually manipulates is an integer or an exact small rational, so no
  double rounding at a half-way boundary occurs and the embedding over
  `ℚ` matches the floating-point execution on these values.
* `Math.round` is `jsRound q = ⌊q + 1/2⌋` (JS rounds half toward +∞).
* the `arr[i] || arr[0]` fallback convention is `resolve`: a defined
  entry that is `0` (falsy) falls back to `arr[0]`, exactly as `||`
  does in JavaScript.
* the per-tick `setInterval` callback of `nv-control.js` is `tick`;
  its per-device body is `deviceStep`; the active branch of the
  `updateVoltage` function of `vt-control.js` is `updateVoltage`.
* the streaming telemetry accessors of `nv-control.js` (`getValues`,
  `getValue`) are embedded over a `Monitor` record; the JavaScript
  expression `undefined[0]` (a thrown TypeError) is `Except.error ()`.
-/

/-- Per-run configuration constants of the controller.  In the source these
are module-level `const` declarations; the claims quantify over them, so
they are gathered in a structure.  Fields keep the source names. -/
structure Config where
  minVoltage : List Int
  maxVoltage : List Int
  startVoltage : List Int
  targetTemperature : List Int
  maxTemperature : List Int
  voltageStep : Int
  Kp : ℚ
deriving Repr, DecidableEq

/-- The constants of `nv-control.js` (identical in the other variants;
`vt-control.js` has no `maxTemperature` and never reads it). -/
def sourceConfig : Config :=
  { minVoltage := [700000]
    maxVoltage := [925000]
    startVoltage := [850000]
    targetTemperature := [60]
    maxTemperature := [90]
    voltageStep := 6250
    Kp := 1/10 }

/-- JavaScript `Math.round`: nearest integer, half rounds toward +∞. -/
def jsRound (q : ℚ) : Int := ⌊q + 1/2⌋

/-- `roundVoltageToStep` of `nv-control.js` / `part_000` (`roundToStep`
of `vt-control.js`): `voltageStep * Math.round(uV / voltageStep)`. -/
def roundVoltageToStep (step : Int) (uV : ℚ) : Int :=
  step * jsRound (uV / (step : ℚ))

/-- The `A[i] || A[0]` per-device parameter fallback used for every
tunable.  A missing entry (index out of range, JavaScript `undefined`)
and a falsy entry (`0`) both fall back to `A[0]`.  For the empty array
JavaScript yields `undefined`; the sources never use empty parameter
arrays, and we return `0` there. -/
def resolve (A : List Int) (i : Nat) : Int :=
  match A.get? i with
  | some v => if v = 0 then A.headD 0 else v
  | none => A.headD 0

/-- The proportional update shared verbatim by all three variants:
`dT = target - T`, `dV = Math.round(dT * Kp * voltageStep)`,
`newV = Math.min(Math.max(cur + dV, min), max)`. -/
def newVoltageOf (cfg : Config) (i : Nat) (cur : ℚ) (T : Int) : ℚ :=
  let dT : Int := resolve cfg.targetTemperature i - T
  let dV : Int := jsRound ((dT : ℚ) * cfg.Kp * (cfg.voltageStep : ℚ))
  min (max (cur + (dV : ℚ)) ((resolve cfg.minVoltage i : Int) : ℚ))
    ((resolve cfg.maxVoltage i : Int) : ℚ)

/-- One device's share of the `setInterval` voltage-control body of
`nv-control.js`: given the stored `currentVoltage[i]` (`none` when the
slot is `undefined`) and the latest temperature, return the new stored
value and the emission for this device (`some uV` when an argument is
pushed, `none` otherwise).  The JavaScript guard `!currentVoltage[i]`
is falsy, so a stored `0` also takes the first-time branch. -/
def deviceStep (cfg : Config) (i : Nat) (cur : Option ℚ) (T : Int) :
    ℚ × Option Int :=
  match cur with
  | none =>
    let uV := roundVoltageToStep cfg.voltageStep
      ((resolve cfg.startVoltage i : Int) : ℚ)
    (((uV : Int) : ℚ), some uV)
  | some v =>
    if v = 0 then
      let uV := roundVoltageToStep cfg.voltageStep
        ((resolve cfg.startVoltage i : Int) : ℚ)
      (((uV : Int) : ℚ), some uV)
    else
      let newVoltage := newVoltageOf cfg i v T
      (newVoltage,
        if roundVoltageToStep cfg.voltageStep newVoltage ≠
            roundVoltageToStep cfg.voltageStep v then
          some (roundVoltageToStep cfg.voltageStep newVoltage)
        else none)

/-- The max-temperature scan at the top of the `nv-control.js` tick:
`maxTemperatureReached` is set when any device's latest temperature is
`>=` its resolved `maxTemperature`. -/
def maxTempReached (cfg : Config) (temps : List Int) : Bool :=
  (List.range temps.length).any
    (fun i => resolve cfg.maxTemperature i ≤ temps.getD i 0)

/-- The whole `setInterval` tick of `nv-control.js`, over the devices
`0, …, temps.length - 1` (the configured `devices` allowlist is empty
in the source, so every reported device is managed).  Returns the new
`currentVoltage` array, the emission batch (`args`, as pairs of device
index and microvolt value), and whether `reboot()` was invoked.  When
the max-temperature check fires, the callback returns before the
voltage-control section: state is untouched and nothing is emitted. -/
def tick (cfg : Config) (temps : List Int) (state : List (Option ℚ)) :
    List (Option ℚ) × List (Nat × Int) × Bool :=
  if maxTempReached cfg temps then (state, [], true)
  else
    let n := temps.length
    ((List.range n).map
        (fun i => some (deviceStep cfg i (state.getD i none) (temps.getD i 0)).1)
      ++ state.drop n,
     (List.range n).filterMap
        (fun i => ((deviceStep cfg i (state.getD i none) (temps.getD i 0)).2).map
          (fun uV => (i, uV))),
     false)

/-- The active (non-first) branch of `updateVoltage` in `vt-control.js`
(and, identically, in `part_000`): all devices' new voltages are
computed, then a single batch-global `changed` flag
(`newVoltage.findIndex(...) >= 0`) decides whether `setVoltage` is
called — and when it is, `setVoltage` receives the rounded voltage of
EVERY device, not just the changed ones.  Returns the new
`currentVoltage` array and the emission batch. -/
def updateVoltage (cfg : Config) (temps : List Int) (cur : List ℚ) :
    List ℚ × List (Nat × Int) :=
  let n := temps.length
  let newVoltage := (List.range n).map
    (fun i => newVoltageOf cfg i (cur.getD i 0) (temps.getD i 0))
  let changed := (List.range n).any
    (fun i => roundVoltageToStep cfg.voltageStep (newVoltage.getD i 0) ≠
      roundVoltageToStep cfg.voltageStep (cur.getD i 0))
  (newVoltage,
    if changed then
      (List.range n).map
        (fun i => (i, roundVoltageToStep cfg.voltageStep (newVoltage.getD i 0)))
    else [])

/-- The rolling-buffer telemetry state captured by the closures of
`runNvidiaSMI` in `nv-control.js`: the `exited` flag set by the
`close` handler, the queried `fields` (with `index` unshifted to the
front), and the per-device measurement rows (`values[gpuIndex]` is a
JavaScript sparse array; a missing slot is `none`; each row stores the
transformed line without the leading index). -/
structure Monitor where
  exited : Bool
  fields : List String
  values : List (Option (List (List Int)))

/-- JavaScript `Array.prototype.indexOf` restricted to what the source
uses: `none` stands for the `-1` that the caller checks for. -/
def jsIndexOf : List String → String → Option Nat
  | [], _ => none
  | x :: xs, s => if x = s then some 0 else (jsIndexOf xs s).map (fun k => k + 1)

/-- `getValues` of `nv-control.js`: `undefined` results (source exited,
unknown field, unseen GPU) are `none`; otherwise the per-row value of
the field, cut to the last `limit` entries when `limit` is truthy and
exceeded. -/
def getValues (m : Monitor) (gpuIndex : Nat) (field : String) (limit : Nat) :
    Option (List Int) :=
  if m.exited then none
  else
    match jsIndexOf m.fields field with
    | none => none
    | some fieldIndex =>
      match m.values.getD gpuIndex none with
      | none => none
      | some rows =>
        let result := rows.map (fun v => v.getD (fieldIndex - 1) 0)
        if limit ≠ 0 ∧ limit < result.length then
          result.drop (result.length - limit)
        else result

/-- `getValue` of `nv-control.js` is `getValues(gpuIndex, field, 1)[0]`.
When `getValues` yields `undefined`, the subscript `[0]` throws a
TypeError (`Except.error ()`); otherwise the latest reading (or
JavaScript `undefined`, `Option.none`, for an empty buffer). -/
def getValue (m : Monitor) (gpuIndex : Nat) (field : String) :
    Except Unit (Option Int) :=
  match getValues m gpuIndex field 1 with
  | none => Except.error ()
  | some l => Except.ok l.head?

/-- A monitor state after the `nvidia-smi` child process has exited,
with one earlier temperature/power reading for device 0 still in the
buffer. -/
def exitedMonitor : Monitor :=
  { exited := true
    fields := ["index", "temperature.gpu", "power.draw"]
    values := [some [[60, 100]]] }

/-- The same monitor state while the child process is still running. -/
def liveMonitor : Monitor :=
  { exited := false
    fields := ["index", "temperature.gpu", "power.draw"]
    values := [some [[60, 100]]] }

theorem getD_map_range {α : Type} (f : Nat → α) (d : α) {n i : Nat} (h : i < n) :
    ((List.range n).map f).getD i d = f i := by
  simp [List.getD, List.getElem?_map, List.getElem?_range, h]

theorem getD_append_left {α : Type} {l l2 : List α} {i : Nat}
    (h : i < l.length) (d : α) : (l ++ l2).getD i d = l.getD i d := by
  simp [List.getD, List.getElem?_append, h]

/-- Claim C9: quantization is idempotent — for every voltage `v`,
`quantize (quantize v) = quantize v` with
`quantize v = voltageStep * Math.round(v / voltageStep)` and
`voltageStep = 6250`. -/
theorem quantize_idempotent (v : ℚ) :
    roundVoltageToStep 6250 ((roundVoltageToStep 6250 v : Int) : ℚ) =
      roundVoltageToStep 6250 v := by
  unfold roundVoltageToStep jsRound
  have h6 : (((6250 : Int) : ℚ)) ≠ 0 := by norm_num
  have hcast :
      (((6250 : Int) * ⌊v / ((6250 : Int) : ℚ) + 1/2⌋ : Int) : ℚ) /
          ((6250 : Int) : ℚ) =
        ((⌊v / ((6250 : Int) : ℚ) + 1/2⌋ : Int) : ℚ) := by
    push_cast
    field_simp
  rw [hcast, Int.floor_int_add]
  norm_num

/-- Claim C5 as stated is false on the code: the `||` fallback replaces
a DEFINED per-device entry by the default whenever the entry is `0`
(falsy).  With `A = [5, 0]`, the entry `A[1]` is defined and equal to
`0`, yet the resolver returns `5 = A[0]`. -/
theorem resolve_counterexample :
    ([5, 0] : List Int).get? 1 = some 0 ∧ resolve [5, 0] 1 = 5 := by
  constructor <;> rfl

/-- Claim C5, amended: the resolver returns `A[i]` whenever `A[i]` is
defined AND nonzero (truthy), and returns `A[0]` (the head) when `A[i]`
is undefined or zero; a defined nonzero per-device entry is never
replaced by the default. -/
theorem resolve_amended (A : List Int) (i : Nat) :
    (∀ v : Int, A.get? i = some v → v ≠ 0 → resolve A i = v) ∧
    ((A.get? i = none ∨ A.get? i = some 0) → resolve A i = A.headD 0) := by
  refine ⟨fun v hv hvz => ?_, fun h => ?_⟩
  · rw [List.get?_eq_getElem?] at hv
    simp [resolve, List.get?_eq_getElem?, hv, hvz]
  · rcases h with h | h <;> rw [List.get?_eq_getElem?] at h <;>
      simp [resolve, List.get?_eq_getElem?, h]

/-- Instance of `resolve_amended` at the spec's own test vector: with a
single-entry `minVoltage = [700000]` and three devices, device 2 resolves
to the default `700000`. -/
theorem resolve_amended_witness : resolve [700000] 2 = 700000 :=
  (resolve_amended [700000] 2).2 (Or.inl rfl)

/-- Claim C6: the worked scenario.  With the source constants
(`targetTemperature = 60`, `Kp = 0.1`, `voltageStep = 6250`, bounds
`[700000, 925000]`), stored voltage `850000` and a temperature reading
of `70`: `dT = -10`, `dV = -6250`, the clamped candidate `843750` is
stored, and since `quantize 843750 = 843750` differs from
`quantize 850000 = 850000`, the tick emits the command `(0, 843750)`. -/
theorem tick_scenario :
    resolve sourceConfig.targetTemperature 0 - 70 = -10 ∧
    jsRound (((-10 : Int) : ℚ) * sourceConfig.Kp * ((sourceConfig.voltageStep : Int) : ℚ)) = -6250 ∧
    newVoltageOf sourceConfig 0 850000 70 = 843750 ∧
    roundVoltageToStep 6250 843750 = 843750 ∧
    roundVoltageToStep 6250 850000 = 850000 ∧
    tick sourceConfig [70] [some 850000] = ([some 843750], [(0, 843750)], false) := by
  refine ⟨by norm_num [resolve, sourceConfig], ?_, ?_, ?_, ?_, ?_⟩
  · norm_num [jsRound, sourceConfig]
  · norm_num [newVoltageOf, resolve, jsRound, sourceConfig, min_def, max_def]
  · norm_num [roundVoltageToStep, jsRound]
  · norm_num [roundVoltageToStep, jsRound]
  · norm_num [tick, maxTempReached, deviceStep, newVoltageOf, resolve, jsRound,
      roundVoltageToStep, sourceConfig, min_def, max_def, List.range_succ,
      List.filterMap_cons]

/-- Claim C8 names the intended behavior (skip a device whose reading is
absent), but the code has a slip: once the telemetry child process has
exited, `getValues` returns `undefined` (its own comment: "no longer
actual"), and `getValue`'s subscript `[0]` on that `undefined` THROWS a
TypeError out of the `setInterval` callback instead of skipping — while
the same call on the still-live monitor returns the reading. -/
theorem getValue_throws_after_exit :
    getValue exitedMonitor 0 "temperature.gpu" = Except.error () ∧
    getValue liveMonitor 0 "temperature.gpu" = Except.ok (some 60) := by
  constructor <;> rfl

/-- Claim C3: whenever some device's latest temperature reaches its
resolved `maxTemperature`, the tick reboots and short-circuits — the
stored voltages are untouched and the emission batch is empty, for any
controller state. -/
theorem tick_safety_short_circuit (cfg : Config) (temps : List Int)
    (state : List (Option ℚ))
    (h : ∃ i < temps.length, resolve cfg.maxTemperature i ≤ temps.getD i 0) :
    tick cfg temps state = (state, [], true) := by
  have hreach : maxTempReached cfg temps = true := by
    rcases h with ⟨i, hi, hle⟩
    unfold maxTempReached
    rw [List.any_eq_true]
    exact ⟨i, List.mem_range.mpr hi, decide_eq_true hle⟩
  simp [tick, hreach]

/-- The spec's own safety test vector: temperature 91 against
`maxTemperature = [90]` reboots without touching state or emitting. -/
theorem tick_safety_short_circuit_witness :
    tick sourceConfig [91] [some 850000] = ([some 850000], [], true) :=
  tick_safety_short_circuit sourceConfig [91] [some 850000]
    ⟨0, by norm_num, by norm_num [resolve, sourceConfig]⟩

/-- Claim C1: on an Active-state tick (stored voltage present and
nonzero) that does not reboot, the stored setpoint after the update is
the candidate clamped into the resolved `[min, max]` interval — in
particular it lies inside that interval whenever the interval is
nonempty. -/
theorem tick_clamp_invariant (cfg : Config) (temps : List Int)
    (state : List (Option ℚ)) (i : Nat) (v : ℚ)
    (hi : i < temps.length) (hv : state.getD i none = some v) (hvz : v ≠ 0)
    (hlohi : resolve cfg.minVoltage i ≤ resolve cfg.maxVoltage i)
    (hsafe : maxTempReached cfg temps = false) :
    ∃ w : ℚ, (tick cfg temps state).1.getD i none = some w ∧
      ((resolve cfg.minVoltage i : Int) : ℚ) ≤ w ∧
      w ≤ ((resolve cfg.maxVoltage i : Int) : ℚ) := by
  refine ⟨newVoltageOf cfg i v (temps.getD i 0), ?_, ?_, ?_⟩
  · have h1 : (tick cfg temps state).1 =
        (List.range temps.length).map
          (fun j => some (deviceStep cfg j (state.getD j none) (temps.getD j 0)).1)
        ++ state.drop temps.length := by
      simp [tick, hsafe]
    rw [h1, getD_append_left (by simpa using hi), getD_map_range _ _ hi, hv]
    simp [deviceStep, hvz]
  · simp only [newVoltageOf]
    exact le_min (le_max_right _ _) (by exact_mod_cast hlohi)
  · simp only [newVoltageOf]
    exact min_le_right _ _

/-- Instance of the clamp invariant at the worked scenario (reading 70,
stored 850000, bounds `[700000, 925000]`). -/
theorem tick_clamp_invariant_witness :
    ∃ w : ℚ, (tick sourceConfig [70] [some 850000]).1.getD 0 none = some w ∧
      ((resolve sourceConfig.minVoltage 0 : Int) : ℚ) ≤ w ∧
      w ≤ ((resolve sourceConfig.maxVoltage 0 : Int) : ℚ) :=
  tick_clamp_invariant sourceConfig [70] [some 850000] 0 850000 (by norm_num)
    rfl (by norm_num) (by norm_num [resolve, sourceConfig])
    (by norm_num [maxTempReached, resolve, sourceConfig, List.range_succ])

/-- Claim C4: on the first tick for device `i` (stored slot absent) that
does not reboot, the stored voltage becomes `quantize (resolve
startVoltage i)`, a command with exactly that value is put in the batch,
and the first-time step does not depend on the temperature reading at
all. -/
theorem tick_first_time (cfg : Config) (temps : List Int)
    (state : List (Option ℚ)) (i : Nat)
    (hi : i < temps.length) (hv : state.getD i none = none)
    (hsafe : maxTempReached cfg temps = false) :
    (tick cfg temps state).1.getD i none =
        some ((roundVoltageToStep cfg.voltageStep
          ((resolve cfg.startVoltage i : Int) : ℚ) : Int) : ℚ) ∧
      (i, roundVoltageToStep cfg.voltageStep ((resolve cfg.startVoltage i : Int) : ℚ)) ∈
        (tick cfg temps state).2.1 ∧
      ∀ T1 T2 : Int, deviceStep cfg i none T1 = deviceStep cfg i none T2 := by
  have h1 : (tick cfg temps state).1 =
      (List.range temps.length).map
        (fun j => some (deviceStep cfg j (state.getD j none) (temps.getD j 0)).1)
      ++ state.drop temps.length := by
    simp [tick, hsafe]
  have h2 : (tick cfg temps state).2.1 =
      (List.range temps.length).filterMap
        (fun j => ((deviceStep cfg j (state.getD j none) (temps.getD j 0)).2).map
          (fun uV => (j, uV))) := by
    simp [tick, hsafe]
  refine ⟨?_, ?_, fun T1 T2 => rfl⟩
  · rw [h1, getD_append_left (by simpa using hi), getD_map_range _ _ hi, hv]
    simp [deviceStep]
  · rw [h2, List.mem_filterMap]
    refine ⟨i, List.mem_range.mpr hi, ?_⟩
    rw [hv]
    simp [deviceStep]

/-- Instance of the first-tick behavior with an empty state array and
the source constants: `quantize 850000 = 850000` is stored and emitted. -/
theorem tick_first_time_witness :
    (tick sourceConfig [70] []).1.getD 0 none =
        some ((roundVoltageToStep sourceConfig.voltageStep
          ((resolve sourceConfig.startVoltage 0 : Int) : ℚ) : Int) : ℚ) ∧
      (0, roundVoltageToStep sourceConfig.voltageStep
        ((resolve sourceConfig.startVoltage 0 : Int) : ℚ)) ∈
        (tick sourceConfig [70] []).2.1 ∧
      ∀ T1 T2 : Int, deviceStep sourceConfig 0 none T1 = deviceStep sourceConfig 0 none T2 :=
  tick_first_time sourceConfig [70] [] 0 (by norm_num) rfl
    (by norm_num [maxTempReached, resolve, sourceConfig, List.range_succ])

/-- Claim C7: on an Active update the STORED state is the clamped,
unquantized candidate; quantization touches only the emitted value,
which — when present — is exactly the quantization of the stored
state. -/
theorem active_state_unquantized (cfg : Config) (i : Nat) (v : ℚ) (T : Int)
    (hvz : v ≠ 0) :
    (deviceStep cfg i (some v) T).1 = newVoltageOf cfg i v T ∧
    ∀ u : Int, (deviceStep cfg i (some v) T).2 = some u →
      u = roundVoltageToStep cfg.voltageStep (deviceStep cfg i (some v) T).1 := by
  have h1 : (deviceStep cfg i (some v) T).1 = newVoltageOf cfg i v T := by
    simp [deviceStep, hvz]
  refine ⟨h1, fun u hu => ?_⟩
  rw [h1]
  by_cases hc : roundVoltageToStep cfg.voltageStep (newVoltageOf cfg i v T) =
      roundVoltageToStep cfg.voltageStep v
  · exfalso
    simp [deviceStep, hvz, hc] at hu
  · simp [deviceStep, hvz, hc] at hu
    exact hu.symm

/-- Instance showing the stored state is genuinely unquantized: with
reading 61 the stored value becomes `849375`, which is NOT a multiple
of the 6250 µV step (`quantize 849375 = 850000 ≠ 849375`). -/
theorem active_state_unquantized_witness :
    (deviceStep sourceConfig 0 (some 850000) 61).1 = 849375 ∧
    (849375 : ℚ) ≠ ((roundVoltageToStep 6250 849375 : Int) : ℚ) := by
  constructor
  · rw [(active_state_unquantized sourceConfig 0 850000 61 (by norm_num)).1]
    norm_num [newVoltageOf, resolve, jsRound, sourceConfig, min_def, max_def]
  · norm_num [roundVoltageToStep, jsRound]

/-- Claim C2 as stated is false on the `vt-control.js` / `part_000`
variants: their `changed` flag is batch-global.  With two devices at
stored `850000` and readings `[60, 70]`, device 0's quantized candidate
equals its quantized previous value, yet because device 1 changed, the
emitted batch contains a command `(0, 850000)` for device 0. -/
theorem change_suppression_counterexample :
    roundVoltageToStep 6250 (newVoltageOf sourceConfig 0 850000 60) =
        roundVoltageToStep 6250 (850000 : ℚ) ∧
    (0, 850000) ∈ (updateVoltage sourceConfig [60, 70] [850000, 850000]).2 := by
  constructor
  · norm_num [newVoltageOf, resolve, jsRound, roundVoltageToStep, sourceConfig,
      min_def, max_def]
  · norm_num [updateVoltage, newVoltageOf, resolve, jsRound, roundVoltageToStep,
      sourceConfig, min_def, max_def, List.range_succ]

/-- Claim C2, amended.  Per-device change-suppression holds for the
`nv-control.js` tick: if device `i`'s quantized candidate equals its
quantized previous voltage, no command for `i` is in the batch.  In the
`vt-control.js` / `part_000` variants the suppression is only
batch-global: when EVERY device's quantized setpoint is unchanged
nothing is emitted (but when any device changed, commands go out for
all devices, cf. the counterexample). -/
theorem change_suppression_amended (cfg : Config) (temps : List Int)
    (state : List (Option ℚ)) (cur : List ℚ) (i : Nat) (v : ℚ)
    (hv : state.getD i none = some v) (hvz : v ≠ 0)
    (hsame : roundVoltageToStep cfg.voltageStep
        (newVoltageOf cfg i v (temps.getD i 0)) =
      roundVoltageToStep cfg.voltageStep v) :
    (∀ u : Int, (i, u) ∉ (tick cfg temps state).2.1) ∧
    ((∀ j, j < temps.length →
        roundVoltageToStep cfg.voltageStep
            (newVoltageOf cfg j (cur.getD j 0) (temps.getD j 0)) =
          roundVoltageToStep cfg.voltageStep (cur.getD j 0)) →
      (updateVoltage cfg temps cur).2 = []) := by
  constructor
  · intro u hu
    cases hb : maxTempReached cfg temps with
    | true => simp [tick, hb] at hu
    | false =>
      simp only [tick, hb] at hu
      simp only [Bool.false_eq_true, if_false] at hu
      rw [List.mem_filterMap] at hu
      obtain ⟨j, hj, hjeq⟩ := hu
      rw [Option.map_eq_some'] at hjeq
      obtain ⟨uV, hop, heq⟩ := hjeq
      obtain ⟨rfl, rfl⟩ := Prod.mk.injEq .. |>.mp heq
      rw [hv] at hop
      simp only [List.getD, List.get?_eq_getElem?] at hsame
      simp [deviceStep, hvz, hsame] at hop
  · intro hall
    simp only [updateVoltage]
    split
    case isTrue hc =>
      exfalso
      rw [List.any_eq_true] at hc
      obtain ⟨j, hj, hdec⟩ := hc
      rw [List.mem_range] at hj
      rw [getD_map_range _ _ hj] at hdec
      simp only [List.getD, List.get?_eq_getElem?] at hall
      simp [hall j hj] at hdec
    case isFalse hc => rfl

/-- Instance of per-device suppression in `nv-control.js`: at the
target temperature the candidate stays `850000` and no command for the
device is emitted. -/
theorem change_suppression_amended_witness :
    ((0 : Nat), (850000 : Int)) ∉ (tick sourceConfig [60] [some 850000]).2.1 :=
  (change_suppression_amended sourceConfig [60] [some 850000] [850000] 0 850000
    rfl (by norm_num)
    (by norm_num [newVoltageOf, resolve, jsRound, roundVoltageToStep,
      sourceConfig, min_def, max_def])).1 850000

/-- Any voltage emitted by `deviceStep` is a `roundVoltageToStep`
result. -/
theorem deviceStep_emit_quantized (cfg : Config) (i : Nat) (cur : Option ℚ)
    (T : Int) (u : Int) (h : (deviceStep cfg i cur T).2 = some u) :
    ∃ q : ℚ, u = roundVoltageToStep cfg.voltageStep q := by
  cases cur with
  | none =>
    simp [deviceStep] at h
    exact ⟨_, h.symm⟩
  | some v =>
    by_cases hz : v = 0
    · simp [deviceStep, hz] at h
      exact ⟨_, h.symm⟩
    · by_cases hc : roundVoltageToStep cfg.voltageStep (newVoltageOf cfg i v T) =
          roundVoltageToStep cfg.voltageStep v
      · exfalso
        simp [deviceStep, hz, hc] at h
      · simp [deviceStep, hz, hc] at h
        exact ⟨_, h.symm⟩

/-- Claim C10: every voltage value placed in an emission batch — the
first-tick start voltage as well as every changed setpoint, in the
`nv-control.js` tick and in the `vt-control.js` batch alike — is an
exact integer multiple of `voltageStep`, because only
`roundVoltageToStep` results are ever emitted. -/
theorem emission_multiple_of_step (cfg : Config) (temps : List Int)
    (state : List (Option ℚ)) (cur : List ℚ) :
    (∀ p ∈ (tick cfg temps state).2.1, cfg.voltageStep ∣ p.2) ∧
    (∀ p ∈ (updateVoltage cfg temps cur).2, cfg.voltageStep ∣ p.2) := by
  constructor
  · intro p hp
    cases hb : maxTempReached cfg temps with
    | true => simp [tick, hb] at hp
    | false =>
      simp only [tick, hb] at hp
      simp only [Bool.false_eq_true, if_false] at hp
      rw [List.mem_filterMap] at hp
      obtain ⟨j, hj, hjeq⟩ := hp
      rw [Option.map_eq_some'] at hjeq
      obtain ⟨uV, hop, heq⟩ := hjeq
      obtain ⟨q, hq⟩ := deviceStep_emit_quantized cfg j _ _ uV hop
      rw [← heq]
      rw [hq, roundVoltageToStep]
      exact dvd_mul_right _ _
  · intro p hp
    simp only [updateVoltage] at hp
    split at hp
    case isTrue hc =>
      rw [List.mem_map] at hp
      obtain ⟨j, hj, hjeq⟩ := hp
      rw [← hjeq, roundVoltageToStep]
      exact dvd_mul_right _ _
    case isFalse hc =>
      simp at hp
